import Mathlib

/-!
Verification development for the `windowFunnel` aggregate function of this
repository (`src/common/functions/src/aggregates/aggregate_window_funnel.rs`).

The Rust state `AggregateWindowFunnelState<T>` holds `events_list: Vec<(T, u8)>`
and `sorted: bool`. We shallowly embed it with `T` and `u8` both modelled as
`Nat` (the timestamp type is an unsigned integer of a configured width; the
stage is a `u8`); where a width matters (serialization) the width is an
explicit parameter and range conditions are explicit hypotheses. Fallible or
panicking code paths (index out of bounds, `copy_from_slice` length mismatch,
`todo!()`, `u8` subtraction overflow) are embedded as `Option`, with `none`
standing for a panic.
-/

namespace WindowFunnel

/-- An event `(timestamp, stage)`: the Rust pair `(T, u8)`. -/
abbrev Event : Type := Nat × Nat

/-- The ordering key used by the Rust comparator `cmp` (in `merge` and `sort`):
lexicographic on (timestamp, stage). `eventLe a b` holds when
`cmp(a, b) != Greater`. -/
def eventLe (a b : Event) : Prop :=
  a.1 < b.1 ∨ (a.1 = b.1 ∧ a.2 ≤ b.2)

instance : DecidableRel eventLe := fun a b => by
  unfold eventLe
  exact inferInstance

instance : IsTotal Event eventLe :=
  ⟨by
    intro a b
    unfold eventLe
    omega⟩

instance : IsTrans Event eventLe :=
  ⟨by
    intro a b c hab hbc
    unfold eventLe at *
    omega⟩

/-- Strict version of the ordering key: `cmp(a, b) == Less` in the Rust
two-pointer loop of `merge`. -/
def eventLtB (a b : Event) : Bool :=
  a.1 < b.1 || (a.1 == b.1 && a.2 < b.2)

/-- The Rust struct `AggregateWindowFunnelState<T>`: the events list and the
sortedness flag. -/
structure AggregateWindowFunnelState where
  events_list : List Event
  sorted : Bool
  deriving DecidableEq

/-- `AggregateWindowFunnelState::new()`: empty list, flag `true`. -/
def new : AggregateWindowFunnelState :=
  { events_list := [], sorted := true }

/-- `AggregateWindowFunnelState::add`: unconditional append; the `sorted`
flag is updated in O(1) exactly as the Rust code does (only when it was
`true` and the list is non-empty: compare with the last element's key). -/
def add (s : AggregateWindowFunnelState) (timestamp event : Nat) :
    AggregateWindowFunnelState :=
  let sorted' :=
    match s.events_list.getLast? with
    | none => s.sorted
    | some last =>
      if s.sorted then
        if last.1 = timestamp then decide (last.2 ≤ event)
        else decide (last.1 ≤ timestamp)
      else s.sorted
  { events_list := s.events_list ++ [(timestamp, event)], sorted := sorted' }

/-- `AggregateWindowFunnelState::sort`: sort the list by the lexicographic
key when the flag is `false`, otherwise a no-op. Rust's stable `sort_by` is
embedded as `List.insertionSort` (a stable sort; the comparator is
antisymmetric on the pairs, so any correct sort yields the same list). The
flag itself is never written. -/
def sort (s : AggregateWindowFunnelState) : AggregateWindowFunnelState :=
  if s.sorted then s
  else { s with events_list := List.insertionSort eventLe s.events_list }

/-- The two-pointer loop inside `AggregateWindowFunnelState::merge`, embedded
with explicit fuel (the loop runs at most `a.length + b.length` iterations,
and `merge` passes fuel strictly greater than that, so fuel never runs out).
`none` is a panic. The loop body is the Rust code verbatim, including its
defect: the `else` branch pushes `other.events_list[i]` (an index into the
wrong list, panicking when `i` is out of `b`'s bounds), and the tail copies
after the loop write through `merged[k..]`, an empty slice, so
`copy_from_slice` panics unless the copied tail is itself empty
(`self`'s tail: only when empty, contradicting `i < l1`; `other`'s tail:
taken from index `i`, empty only when `i == l2`, and `other[i..]` itself
panics when `i > l2`). -/
def mergeLoop (a b : List Event) :
    Nat → Nat → Nat → List Event → Option (List Event)
  | 0, _, _, _ => none
  | fuel + 1, i, j, acc =>
    if hij : i < a.length ∧ j < b.length then
      if eventLtB (a.get ⟨i, hij.1⟩) (b.get ⟨j, hij.2⟩) then
        mergeLoop a b fuel (i + 1) j (acc ++ [a.get ⟨i, hij.1⟩])
      else
        match b.get? i with
        | none => none
        | some z => mergeLoop a b fuel i (j + 1) (acc ++ [z])
    else if i < a.length then none
    else if j < b.length then
      if b.length = i then some acc else none
    else some acc

/-- `AggregateWindowFunnelState::merge`: early return when `other` is empty;
otherwise both sides are sorted and combined by the (defective) two-pointer
loop. On success the merged list replaces `self.events_list`; the `sorted`
flag is not written. `none` is a panic of the loop or of the tail copies. -/
def merge (s other : AggregateWindowFunnelState) :
    Option AggregateWindowFunnelState :=
  if other.events_list = [] then some s
  else
    let s2 := sort s
    let o2 := sort other
    match mergeLoop s2.events_list o2.events_list
        (s2.events_list.length + o2.events_list.length + 1) 0 0 [] with
    | none => none
    | some merged => some { s2 with events_list := merged }

/-- The loop of `get_event_level` over the sorted events. `ts` is the Rust
`events_timestamp` vector (initially `event_size` copies of `None`).
For a stage-1 event the Rust code pushes `Some(timestamp)` (rather than
writing slot 0); for a later stage it merely indexes
`events_timestamp[event_idx - 1]` (panicking when out of bounds) and does
nothing with the answer. `event == 0` would make the `u8` subtraction
`event - 1` overflow, a panic in the source; both panics are `none`. The
Rust-side `first_event` boolean is assigned in the stage-1 branch but never
read, so it is not carried here. -/
def levelLoop : List Event → List (Option Nat) → Option (List (Option Nat))
  | [], ts => some ts
  | (t, e) :: rest, ts =>
    if e = 0 then none
    else if e - 1 = 0 then levelLoop rest (ts ++ [some t])
    else if e - 2 < ts.length then levelLoop rest ts
    else none

/-- `AggregateWindowFunnelFunction::get_event_level`: returns 0 on an empty
list, 1 when `event_size == 1`, and otherwise sorts, runs `levelLoop`
(whose result is discarded) and returns the constant 4 that ends the Rust
function. `window` is a field of `self` in the source and is never read by
this function; it is kept as an (unused) argument to state that fact. -/
def get_event_level (window event_size : Nat)
    (s : AggregateWindowFunnelState) : Option Nat :=
  if s.events_list = [] then some 0
  else if event_size = 1 then some 1
  else
    match levelLoop (sort s).events_list
        (List.replicate event_size (none : Option Nat)) with
    | some _ => some 4
    | none => none

/-- `AggregateWindowFunnelFunction::merge_result`: sorts the state and then
hits `todo!()`, which panics unconditionally, so no value is ever produced
(the in-place sort is not observable afterwards). -/
def merge_result (s : AggregateWindowFunnelState) : Option Nat :=
  let _sorted := sort s
  none

/-- Modelled from the spec (§4.3 LevelResolver), which is authoritative for
the level-resolution algorithm the source only sketches: one step of the
anchor update for event `p = (t, s)`. `anchor` has one slot per stage
(0-based: slot `s-1` for stage `s`); a stage-1 event seeds slot 0 when it is
unset; a stage-`s` event (`s > 1`) sets slot `s-1` when slot `s-2` is set,
slot `s-1` is unset and `t - anchor[s-1] ≤ W`. -/
def specStep (W : Nat) (anchor : List (Option Nat)) (p : Event) :
    List (Option Nat) :=
  if p.2 = 1 then
    match anchor.get? 0 with
    | some none => anchor.set 0 (some p.1)
    | _ => anchor
  else
    match anchor.get? (p.2 - 2), anchor.get? (p.2 - 1) with
    | some (some a), some none =>
      if p.1 - a ≤ W then anchor.set (p.2 - 1) (some p.1) else anchor
    | _, _ => anchor

/-- Length of the leading all-set segment of the anchor vector: the largest
`s` such that slots `0..s-1` are all set with no gap. -/
def leadingSet : List (Option Nat) → Nat
  | [] => 0
  | none :: _ => 0
  | some _ :: rest => leadingSet rest + 1

/-- Modelled from the spec (§4.3 LevelResolver): the funnel level for a
funnel of `N` stages and window `W` — 0 on an empty buffer, 1 for the
`N == 1` short-circuit, otherwise the leading-set count of the anchors after
one pass over the events in ascending (timestamp, stage) order. -/
def specLevel (N W : Nat) (events : List Event) : Nat :=
  if events = [] then 0
  else if N = 1 then 1
  else
    leadingSet ((List.insertionSort eventLe events).foldl (specStep W)
      (List.replicate N (none : Option Nat)))

/-! ### Serialization

The wire format written by `AggregateWindowFunnelState::serialize` and read
back by `deserialize`: the `sorted` flag (one byte), the list length as an
unsigned LEB128 varint (`write_uvarint` / `read_uvarint` of `common_io`),
then per event the timestamp in the configured fixed width `w` and the stage
as one byte. The byte-level primitives (`BinarySer` / `BinaryDe` /
`write_uvarint`) live outside `src/`; they are modelled from the spec's
wire-format description (§4.2). A byte is a `Nat` (every written byte is
< 256); `none` is a truncated read. -/

/-- Modelled from the spec: the one-byte boolean encoding of the `sorted`
flag. -/
def writeBool (b : Bool) : List Nat :=
  [if b then 1 else 0]

/-- Modelled from the spec: read one byte as a boolean (nonzero is `true`). -/
def readBool : List Nat → Option (Bool × List Nat)
  | [] => none
  | b :: rest => some (b != 0, rest)

/-- Modelled from the spec: `write_uvarint`, unsigned LEB128 — seven payload
bits per byte, low bits first, high bit of a byte set while more bytes
follow. -/
def write_uvarint (n : Nat) : List Nat :=
  if n < 128 then [n] else (n % 128 + 128) :: write_uvarint (n / 128)
termination_by n
decreasing_by omega

/-- Modelled from the spec: `read_uvarint`, decoding unsigned LEB128. -/
def read_uvarint : List Nat → Option (Nat × List Nat)
  | [] => none
  | b :: rest =>
    if b < 128 then some (b, rest)
    else
      match read_uvarint rest with
      | none => none
      | some (v, r) => some (v * 128 + (b - 128), r)

/-- Modelled from the spec: the type-specific fixed-width encoding of a
timestamp — `w` bytes, little-endian. -/
def writeFixed : Nat → Nat → List Nat
  | 0, _ => []
  | k + 1, t => t % 256 :: writeFixed k (t / 256)

/-- Modelled from the spec: read a `w`-byte little-endian unsigned integer. -/
def readFixed : Nat → List Nat → Option (Nat × List Nat)
  | 0, bytes => some (0, bytes)
  | _ + 1, [] => none
  | k + 1, b :: rest =>
    match readFixed k rest with
    | none => none
    | some (v, r) => some (b + 256 * v, r)

/-- The per-event part of `serialize`'s loop: timestamp in width `w`, then
the stage byte. -/
def writeEvents (w : Nat) : List Event → List Nat
  | [] => []
  | p :: rest => writeFixed w p.1 ++ p.2 :: writeEvents w rest

/-- The loop of `deserialize`: read exactly `n` events. -/
def readEvents (w : Nat) : Nat → List Nat → Option (List Event × List Nat)
  | 0, bytes => some ([], bytes)
  | n + 1, bytes =>
    match readFixed w bytes with
    | none => none
    | some (t, r1) =>
      match r1 with
      | [] => none
      | e :: r2 =>
        match readEvents w n r2 with
        | none => none
        | some (l, r3) => some ((t, e) :: l, r3)

/-- `AggregateWindowFunnelState::serialize` for timestamp width `w`: the
flag, the length varint, then the events. -/
def serialize (w : Nat) (s : AggregateWindowFunnelState) : List Nat :=
  writeBool s.sorted ++ write_uvarint s.events_list.length ++
    writeEvents w s.events_list

/-- `AggregateWindowFunnelState::deserialize` for timestamp width `w`: read
the flag, the length, then that many events, overwriting the state. The
reader leaves any trailing bytes for its caller, exactly as the Rust slice
reader does; `none` is the `MalformedState` error on a truncated stream. -/
def deserialize (w : Nat) (bytes : List Nat) :
    Option AggregateWindowFunnelState :=
  match readBool bytes with
  | none => none
  | some (flag, r1) =>
    match read_uvarint r1 with
    | none => none
    | some (n, r2) =>
      match readEvents w n r2 with
      | none => none
      | some (events, _rest) => some { events_list := events, sorted := flag }

/-! ### Construction -/

/-- The column types the construction dispatch can meet. Modelled from the
spec: the supported timestamp family is the closed set of unsigned integer
widths; the other constructors stand for arbitrary unsupported types. -/
inductive DataType where
  | UInt8 | UInt16 | UInt32 | UInt64
  | Int8 | Int16 | Int32 | Int64
  | Float32 | Float64 | Boolean | Utf8
  deriving DecidableEq

/-- Modelled from the spec: membership in the closed unsigned-integer family
tried by the `dispatch_unsigned_numeric_types!` macro. -/
def is_unsigned_numeric : DataType → Bool
  | .UInt8 | .UInt16 | .UInt32 | .UInt64 => true
  | _ => false

/-- An input column description, as much of the Rust `DataField` as
construction reads: its name and its data type. -/
structure DataField where
  name : String
  data_type : DataType
  deriving DecidableEq

/-- The constructed aggregate: the fields `AggregateWindowFunnelFunction`
carries (minus the `PhantomData`). -/
structure AggregateWindowFunnelFunction where
  display_name : String
  arguments : List DataField
  event_size : Nat
  window : Nat
  deriving DecidableEq

/-- The construction-time error taxonomy (§7 of the spec): an arity error or
an unsupported timestamp type (`ErrorCode::BadDataValueType` in the
source). -/
inductive FuncError where
  | ArityError
  | BadDataValueType
  deriving DecidableEq

/-- `AggregateWindowFunnelFunction::try_create`: records the arguments, sets
`event_size` to the column count minus one and the window to the fixed
constant 1024. -/
def try_create (display_name : String) (arguments : List DataField) :
    AggregateWindowFunnelFunction :=
  { display_name := display_name
    arguments := arguments
    event_size := arguments.length - 1
    window := 1024 }

/-- `try_create_aggregate_WindowFunnel_function`: the arity assertion, then
the dispatch over the unsigned family on the first column's type, falling
through to `BadDataValueType`. The arity assertion's body
(`assert_unary_arguments`, outside `src/`) is modelled from the spec:
fewer than two input columns (zero funnel steps) is an arity error. -/
def try_create_aggregate_WindowFunnel_function (display_name : String)
    (arguments : List DataField) :
    Except FuncError AggregateWindowFunnelFunction :=
  if arguments.length < 2 then .error .ArityError
  else
    match arguments with
    | [] => .error .ArityError
    | a :: _ =>
      if is_unsigned_numeric a.data_type then
        .ok (try_create display_name arguments)
      else .error .BadDataValueType

/-- A state is well formed for width `w` when every timestamp fits in `w`
bytes and every stage fits in a `u8` — guaranteed in the Rust types `T` and
`u8` — and the length fits the `len as u64` cast in `serialize`. -/
def WFState (w : Nat) (s : AggregateWindowFunnelState) : Prop :=
  (∀ p ∈ s.events_list, p.1 < 256 ^ w ∧ p.2 < 256) ∧
    s.events_list.length < 2 ^ 64

theorem readBool_writeBool (b : Bool) (rest : List Nat) :
    readBool (writeBool b ++ rest) = some (b, rest) := by
  cases b <;> rfl

theorem read_write_uvarint (n : Nat) (rest : List Nat) :
    read_uvarint (write_uvarint n ++ rest) = some (n, rest) := by
  induction n using Nat.strong_induction_on with
  | _ n ih =>
    rw [write_uvarint]
    by_cases h : n < 128
    · simp [h, read_uvarint]
    · rw [if_neg h, List.cons_append, read_uvarint]
      rw [if_neg (by omega), ih (n / 128) (by omega)]
      simp only [Option.some.injEq, Prod.mk.injEq]
      exact ⟨by omega, trivial⟩

theorem read_write_fixed (w : Nat) :
    ∀ (t : Nat) (rest : List Nat), t < 256 ^ w →
      readFixed w (writeFixed w t ++ rest) = some (t, rest) := by
  induction w with
  | zero =>
    intro t rest ht
    have : t = 0 := by simpa using ht
    simp [this, writeFixed, readFixed]
  | succ k ih =>
    intro t rest ht
    have hdiv : t / 256 < 256 ^ k := by
      rw [Nat.div_lt_iff_lt_mul (by norm_num)]
      calc t < 256 ^ (k + 1) := ht
        _ = 256 ^ k * 256 := by ring
    rw [writeFixed, List.cons_append, readFixed, ih (t / 256) rest hdiv]
    simp [Nat.mod_add_div]

theorem read_write_events (w : Nat) (l : List Event) (rest : List Nat)
    (h : ∀ p ∈ l, p.1 < 256 ^ w) :
    readEvents w l.length (writeEvents w l ++ rest) = some (l, rest) := by
  induction l with
  | nil => simp [writeEvents, readEvents]
  | cons p tl ih =>
    have hp : p.1 < 256 ^ w := h p (by simp)
    rw [List.length_cons, writeEvents, readEvents]
    rw [List.append_assoc, List.cons_append,
      read_write_fixed w p.1 (p.2 :: (writeEvents w tl ++ rest)) hp]
    simp [ih (fun q hq => h q (by simp [hq]))]

/-- C4: for every state, including the empty one, deserializing the
serialized bytes reproduces the exact event sequence and the recorded
sorted flag (for any configured timestamp width `w`, with events in the
ranges the Rust types guarantee). -/
theorem deserialize_serialize_roundtrip (w : Nat)
    (s : AggregateWindowFunnelState) (h : WFState w s) :
    deserialize w (serialize w s) = some s := by
  obtain ⟨el, fl⟩ := s
  obtain ⟨hranges, _hlen⟩ := h
  have h3 := read_write_events w el [] (fun p hp => (hranges p hp).1)
  simp only [List.append_nil] at h3
  simp [serialize, deserialize, readBool_writeBool, read_write_uvarint, h3]

/-- C4 witness: the round-trip theorem applied to a concrete non-empty,
unsorted state at width 8, and to the empty state at width 4. -/
theorem deserialize_serialize_roundtrip_witness :
    deserialize 8 (serialize 8 ⟨[(3, 2), (1, 1)], false⟩) =
        some ⟨[(3, 2), (1, 1)], false⟩ ∧
      deserialize 4 (serialize 4 ⟨[], true⟩) = some ⟨[], true⟩ :=
  ⟨deserialize_serialize_roundtrip 8 ⟨[(3, 2), (1, 1)], false⟩
      ⟨by decide, by decide⟩,
    deserialize_serialize_roundtrip 4 ⟨[], true⟩ ⟨by decide, by decide⟩⟩

/-- C1: the code's level resolution does not compute the §4.3 funnel level.
On the spec's Example 1 (N=3, W=10, events [(0,1),(5,2),(9,3)], expected
level 3) the helper `get_event_level` returns its hard-coded constant 4,
`merge_result` — the actual finalize — panics at `todo!()` and produces
nothing, while the §4.3 algorithm yields 3. -/
theorem get_event_level_is_constant_not_funnel_level :
    get_event_level 10 3 ⟨[(0, 1), (5, 2), (9, 3)], true⟩ = some 4 ∧
      merge_result ⟨[(0, 1), (5, 2), (9, 3)], true⟩ = none ∧
      specLevel 3 10 [(0, 1), (5, 2), (9, 3)] = 3 := by
  refine ⟨by decide, rfl, by decide⟩

/-- C5: the code applies no window check at all. For N=2, W=10, both
`[(0,1),(10,2)]` (delta exactly W, claim: valid, level 2) and
`[(0,1),(11,2)]` (delta W+1, claim: invalid, level 1) make
`get_event_level` return the same constant 4; the §4.3 algorithm
distinguishes them (2 versus 1) and accepts the identical-timestamp pair
`[(0,1),(0,2)]` (level 2). -/
theorem window_boundary_never_checked :
    get_event_level 10 2 ⟨[(0, 1), (10, 2)], true⟩ = some 4 ∧
      get_event_level 10 2 ⟨[(0, 1), (11, 2)], true⟩ = some 4 ∧
      specLevel 2 10 [(0, 1), (10, 2)] = 2 ∧
      specLevel 2 10 [(0, 1), (11, 2)] = 1 ∧
      specLevel 2 10 [(0, 1), (0, 2)] = 2 := by
  refine ⟨by decide, by decide, by decide, by decide, by decide⟩

/-- C6: `get_event_level` returns 0 on an empty buffer (whatever the window
and the flag), and short-circuits to 1 when `event_size = 1` and the buffer
is non-empty, with no window check and no look at the timestamps — the
window argument is arbitrary and the state arbitrary non-empty. -/
theorem level_empty_and_single_stage (W n : Nat) (b : Bool)
    (s : AggregateWindowFunnelState) (h : s.events_list ≠ []) :
    get_event_level W n ⟨[], b⟩ = some 0 ∧ get_event_level W 1 s = some 1 := by
  constructor
  · rfl
  · rw [get_event_level, if_neg h]
    rfl

/-- C6 witness: the theorem at window 3, event size 7 for the empty case,
and on the one-event state of the spec's Example 3 for the short-circuit. -/
theorem level_empty_and_single_stage_witness :
    get_event_level 3 7 ⟨[], false⟩ = some 0 ∧
      get_event_level 3 1 ⟨[(100, 1)], true⟩ = some 1 :=
  level_empty_and_single_stage 3 7 false ⟨[(100, 1)], true⟩ (by decide)

/-- C2: `merge` does not produce the multiset union. Merging
`[(1,1)]` with `[(2,1)]` silently drops `(2,1)` (the defective tail copy
copies `other`'s tail from offset `i = l2`, an empty slice), and merging the
empty state with `[(2,1)]` panics outright (`copy_from_slice` length
mismatch), embedded as `none`. -/
theorem merge_not_multiset_union :
    merge ⟨[(1, 1)], true⟩ ⟨[(2, 1)], true⟩ = some ⟨[(1, 1)], true⟩ ∧
      merge ⟨[], true⟩ ⟨[(2, 1)], true⟩ = none := by
  refine ⟨by decide, by decide⟩

/-- C3: `merge` is not commutative (so a fortiori the claimed
commutativity-and-associativity fails): merging the empty state into
`[(1,1)]` is a no-op, while merging `[(1,1)]` into the empty state panics
in the tail copy. -/
theorem merge_not_commutative :
    merge ⟨[(1, 1)], true⟩ ⟨[], true⟩ = some ⟨[(1, 1)], true⟩ ∧
      merge ⟨[], true⟩ ⟨[(1, 1)], true⟩ = none := by
  refine ⟨by decide, by decide⟩

/-- C7: merging an empty state into `S` is indeed a no-op (the early
return), but merging a non-empty state into an empty self does not yield
the other's contents — it panics in the tail copy. -/
theorem merge_into_empty_panics :
    merge ⟨[(1, 1), (3, 2)], false⟩ ⟨[], true⟩ =
        some ⟨[(1, 1), (3, 2)], false⟩ ∧
      merge ⟨[], true⟩ ⟨[(1, 1)], false⟩ = none := by
  refine ⟨by decide, by decide⟩

/-- C8 counterexample: two input columns are supplied, yet construction
fails — the first (timestamp) column's type `Float64` is outside the
unsigned family, so the dispatch falls through to `BadDataValueType`.
Construction therefore does not succeed "exactly when at least two input
columns are supplied". -/
theorem try_create_two_columns_unsupported_type_fails :
    try_create_aggregate_WindowFunnel_function "windowFunnel"
        [⟨"ts", .Float64⟩, ⟨"e1", .Boolean⟩] =
      .error .BadDataValueType := rfl

/-- C8 amended: construction succeeds exactly when at least two input
columns are supplied and the first column's type is in the supported
unsigned-integer family; then `event_size = column count - 1` (and the
window is the fixed constant 1024). With fewer than two columns it fails
with the arity error, and with two or more columns but an unsupported first
type it fails with `BadDataValueType` — the last stated in general, for an
arbitrary leading column of unsupported type. -/
theorem try_create_characterization (dn : String) (args : List DataField) :
    ((∃ f, try_create_aggregate_WindowFunnel_function dn args = .ok f) ↔
        2 ≤ args.length ∧
          (∃ a rest, args = a :: rest ∧ is_unsigned_numeric a.data_type)) ∧
      (args.length < 2 →
        try_create_aggregate_WindowFunnel_function dn args =
          .error .ArityError) ∧
      (∀ a rest, args = a :: rest → ¬is_unsigned_numeric a.data_type →
        2 ≤ args.length →
        try_create_aggregate_WindowFunnel_function dn args =
          .error .BadDataValueType) ∧
      (∀ f, try_create_aggregate_WindowFunnel_function dn args = .ok f →
        f.event_size = args.length - 1 ∧ f.window = 1024) := by
  match args with
  | [] =>
    refine ⟨?_, fun _ => rfl, ?_, fun f hf => by cases hf⟩
    · constructor
      · rintro ⟨f, hf⟩
        cases hf
      · rintro ⟨h2, -⟩
        exact absurd h2 (by decide)
    · intro a rest heq
      cases heq
  | [a] =>
    refine ⟨?_, fun _ => rfl, ?_, fun f hf => by cases hf⟩
    · constructor
      · rintro ⟨f, hf⟩
        cases hf
      · rintro ⟨h2, -⟩
        exact absurd h2 (by simp)
    · intro a' rest' heq hu h2
      exact absurd h2 (by simp)
  | a :: b :: rest =>
    have hlen : ¬(a :: b :: rest).length < 2 := by
      simp
    rw [show try_create_aggregate_WindowFunnel_function dn (a :: b :: rest) =
        (if is_unsigned_numeric a.data_type then
          .ok (try_create dn (a :: b :: rest))
        else .error .BadDataValueType) by
      unfold try_create_aggregate_WindowFunnel_function
      rw [if_neg hlen]]
    by_cases hu : is_unsigned_numeric a.data_type
    · rw [if_pos hu]
      refine ⟨?_, fun h2 => absurd h2 hlen, ?_, fun f hf => ?_⟩
      · constructor
        · intro _
          exact ⟨by simp, a, b :: rest, rfl, hu⟩
        · intro _
          exact ⟨try_create dn (a :: b :: rest), rfl⟩
      · intro a' rest' heq hu' h2
        cases heq
        exact absurd hu hu'
      · cases hf
        exact ⟨rfl, rfl⟩
    · rw [if_neg hu]
      refine ⟨?_, fun h2 => absurd h2 hlen, ?_, fun f hf => by cases hf⟩
      · constructor
        · rintro ⟨f, hf⟩
          cases hf
        · rintro ⟨-, c, rest', heq, hub⟩
          cases heq
          exact absurd hub hu
      · intro a' rest' heq hu' h2
        rfl

/-- C8 witness: the characterization applied to three concrete column
lists — a supported two-step funnel (construction succeeds with
`event_size = 2`), a single column (arity error), and two columns with an
unsupported `Int64` timestamp type (type error via the general clause). -/
theorem try_create_characterization_witness :
    (∃ f, try_create_aggregate_WindowFunnel_function "windowFunnel"
        [⟨"ts", .UInt32⟩, ⟨"e1", .Boolean⟩, ⟨"e2", .Boolean⟩] = .ok f ∧
          f.event_size = 2) ∧
      try_create_aggregate_WindowFunnel_function "windowFunnel"
          [⟨"ts", .UInt32⟩] = .error .ArityError ∧
      try_create_aggregate_WindowFunnel_function "windowFunnel"
          [⟨"ts", .Int64⟩, ⟨"e1", .Boolean⟩] = .error .BadDataValueType := by
  refine ⟨?_, ?_, ?_⟩
  · obtain ⟨f, hf⟩ :=
      (try_create_characterization "windowFunnel"
            [⟨"ts", .UInt32⟩, ⟨"e1", .Boolean⟩, ⟨"e2", .Boolean⟩]).1.mpr
        ⟨by decide, ⟨"ts", .UInt32⟩, [⟨"e1", .Boolean⟩, ⟨"e2", .Boolean⟩],
          rfl, by decide⟩
    refine ⟨f, hf, ?_⟩
    have := (try_create_characterization "windowFunnel"
        [⟨"ts", .UInt32⟩, ⟨"e1", .Boolean⟩, ⟨"e2", .Boolean⟩]).2.2.2 f hf
    simpa using this.1
  · exact (try_create_characterization "windowFunnel"
      [⟨"ts", .UInt32⟩]).2.1 (by decide)
  · exact (try_create_characterization "windowFunnel"
        [⟨"ts", .Int64⟩, ⟨"e1", .Boolean⟩]).2.2.1
      ⟨"ts", .Int64⟩ [⟨"e1", .Boolean⟩] rfl (by decide) (by decide)

/-- The flag invariant: whenever the `sorted` flag is `true`, the events
list genuinely is sorted by the (timestamp, stage) key (adjacent pairs in
order; the key is transitive, so this is full sortedness). -/
def SortedFlagOK (s : AggregateWindowFunnelState) : Prop :=
  s.sorted = true → List.Chain' eventLe s.events_list

theorem SortedFlagOK_new : SortedFlagOK new := by
  intro _
  exact List.chain'_nil

/-- C9: `add` preserves the flag invariant, and the flag after `add` is
`true` exactly when it was `true` before and the appended element's
ordering key is ≥ the previous last element's key (vacuously when the
buffer was empty) — the O(1) update the code performs, never a re-scan. -/
theorem add_preserves_sorted_flag (s : AggregateWindowFunnelState)
    (t e : Nat) (h : SortedFlagOK s) :
    SortedFlagOK (add s t e) ∧
      ((add s t e).sorted = true ↔
        s.sorted = true ∧ ∀ last ∈ s.events_list.getLast?, eventLe last (t, e)) := by
  rcases hL : s.events_list.getLast? with - | last
  · have hnil : s.events_list = [] := List.getLast?_eq_none_iff.mp hL
    constructor
    · intro _
      rw [add, hL] at *
      simp only [hnil, List.nil_append]
      exact List.chain'_singleton _
    · rw [add, hL]
      simp
  · have hflag : (add s t e).sorted =
        (if s.sorted then
          (if last.1 = t then decide (last.2 ≤ e) else decide (last.1 ≤ t))
        else s.sorted) := by
      rw [add, hL]
    have hkey : (if last.1 = t then decide (last.2 ≤ e)
        else decide (last.1 ≤ t)) = true ↔ eventLe last (t, e) := by
      unfold eventLe
      by_cases hte : last.1 = t
      · simp [hte]
      · simp only [if_neg hte, decide_eq_true_eq]
        omega
    cases hs : s.sorted
    · constructor
      · intro hbad
        rw [hflag, hs] at hbad
        simp at hbad
      · rw [hflag, hs]
        simp
    · constructor
      · intro htrue
        rw [hflag, hs, if_pos rfl] at htrue
        have hle : eventLe last (t, e) := hkey.mp htrue
        rw [add]
        refine List.chain'_append.mpr ⟨h hs, List.chain'_singleton _, ?_⟩
        intro x hx y hy
        rw [hL] at hx
        simp only [Option.mem_def, Option.some.injEq] at hx
        simp only [List.head?_cons, Option.mem_def, Option.some.injEq] at hy
        rw [← hx, ← hy] at *
        exact hle
      · rw [hflag, hs, if_pos rfl, hkey]
        simp

/-- C9 witness: the invariant-preservation theorem applied to the concrete
sorted one-event state `[(1,1)]` and the out-of-order append `(0,5)`: the
invariant still holds afterwards, and the flag iff shows the flag flipped
exactly because the new key is below the last key. -/
theorem add_preserves_sorted_flag_witness :
    SortedFlagOK (add ⟨[(1, 1)], true⟩ 0 5) ∧
      ((add ⟨[(1, 1)], true⟩ 0 5).sorted = true ↔
        true = true ∧
          ∀ last ∈ ([((1 : Nat), (1 : Nat))] : List Event).getLast?,
            eventLe last (0, 5)) :=
  add_preserves_sorted_flag ⟨[(1, 1)], true⟩ 0 5
    (fun _ => List.chain'_singleton _)

/-- C10: `sort` never writes the `sorted` flag — it stays exactly what it
was — even though, when the flag was `false`, the events list does come out
genuinely ordered by the (timestamp, stage) key; a second `sort` of the
result therefore still sees flag `false` and sorts again rather than
no-op. -/
theorem sort_never_updates_flag (s : AggregateWindowFunnelState) :
    (sort s).sorted = s.sorted ∧
      (s.sorted = false →
        List.Chain' eventLe (sort s).events_list ∧
          (sort (sort s)).sorted = false) := by
  constructor
  · cases hs : s.sorted <;> simp [sort, hs]
  · intro hs
    constructor
    · rw [sort, hs]
      simp only [Bool.false_eq_true, if_false]
      exact ((List.sorted_insertionSort eventLe s.events_list).chain')
    · rw [sort, sort, hs]
      simp [hs]

/-- C10 witness: the theorem on a concrete out-of-order state with flag
`false` — after `sort` the list is ordered but, the flag being untouched,
a repeated `sort` still finds it `false`. -/
theorem sort_never_updates_flag_witness :
    List.Chain' eventLe (sort ⟨[(2, 2), (1, 1)], false⟩).events_list ∧
      (sort (sort ⟨[(2, 2), (1, 1)], false⟩)).sorted = false :=
  (sort_never_updates_flag ⟨[(2, 2), (1, 1)], false⟩).2 rfl

end WindowFunnel
